import Mathlib

/-!
Shallow embedding of the zero-trust authorization core of the RIVER-WEBSITE
backend: session store, risk engine, continuous access evaluation,
risk-adaptive throttling, device binding, policy client, entitlements and
the hash-chained audit log, each translated from the corresponding
TypeScript module.  Timestamps are integers (milliseconds, as produced by
the JavaScript clock), JavaScript objects become structures, a field that
may be undefined at runtime becomes an Option, a thrown exception becomes
the error case of Except, and the Redis-backed key/value state becomes an
explicit association-list state threaded through the operations.
-/

set_option autoImplicit false

namespace RiverZTA

/-- Association-list lookup: the value bound to a key, if any. -/
def alookup {α : Type} (k : String) : List (String × α) → Option α
  | [] => none
  | (k', v) :: rest => if k = k' then some v else alookup k rest

/-- Remove every binding for a key (models deleting a Redis key). -/
def aerase {α : Type} (k : String) (l : List (String × α)) : List (String × α) :=
  l.filter (fun kv => kv.1 ≠ k)

/-- Bind a key to a value, replacing any previous binding (models a Redis SET). -/
def aset {α : Type} (k : String) (v : α) (l : List (String × α)) : List (String × α) :=
  (k, v) :: aerase k l

/-- Remove a batch of keys (models a single batched Redis DEL). -/
def aeraseAll {α : Type} (ks : List String) (l : List (String × α)) : List (String × α) :=
  l.filter (fun kv => kv.1 ∉ ks)

/-! ## Risk model (backend/authorization/risk/risk.model.ts) -/

/-- RiskLevel, the four-valued risk classification of risk.model.ts. -/
inductive RiskLevel where
  | LOW
  | MEDIUM
  | HIGH
  | CRITICAL
deriving DecidableEq, Repr

/-- The signal kinds of risk.model.ts. -/
inductive RiskSignalType where
  | IP_ANOMALY
  | GEO_ANOMALY
  | DEVICE_MISMATCH
  | IMPOSSIBLE_TRAVEL
  | BEHAVIOR_ANOMALY
  | THREAT_INTEL
  | SESSION_REUSE
deriving DecidableEq, Repr

/-- RiskSignal of risk.model.ts: a typed severity-weighted observation. -/
structure RiskSignal where
  type : RiskSignalType
  severity : Int
  evidence : String
deriving DecidableEq, Repr

/-- SessionRiskProfile of risk.model.ts. -/
structure SessionRiskProfile where
  sessionId : String
  subjectId : String
  riskScore : Int
  riskLevel : RiskLevel
  signals : List RiskSignal
  evaluatedAt : Int
deriving DecidableEq, Repr

/-! ## Risk engine (backend/authorization/risk/risk.engine.ts) -/

/-- The threshold classifier of risk.engine.ts: CRITICAL at 80 and above,
HIGH at 60, MEDIUM at 30, LOW below 30. -/
def classify (score : Int) : RiskLevel :=
  if score ≥ 80 then .CRITICAL
  else if score ≥ 60 then .HIGH
  else if score ≥ 30 then .MEDIUM
  else .LOW

/-- Parameter record of RiskEngine.evaluate. -/
structure EvaluateParams where
  sessionId : String
  subjectId : String
  signals : List RiskSignal

namespace RiskEngine

/-- RiskEngine.evaluate of risk.engine.ts: sums severity times five over the
signals, caps the sum at 100, classifies it, and stamps the evaluation time
(the source reads the clock via new Date; here the clock is the explicit
argument now). -/
def evaluate (now : Int) (params : EvaluateParams) : SessionRiskProfile :=
  let score := params.signals.foldl (fun sum s => sum + s.severity * 5) 0
  let normalized := min score 100
  { sessionId := params.sessionId
    subjectId := params.subjectId
    riskScore := normalized
    riskLevel := classify normalized
    signals := params.signals
    evaluatedAt := now }

end RiskEngine

/-! ## Session records (backend/authentication/session/session.service.ts)

The Session interface of session.service.ts declares tenantId as a required
string, but SessionService.create writes a record without that property, so
at runtime reading tenantId can yield undefined; the field is therefore an
Option here, as are the optional deviceId and revokedAt.  The interface also
has no lastIp property even though risk.signals.ts reads session.lastIp;
that read always yields undefined and is modelled accordingly. -/

/-- A session record as actually stored by session.service.ts. -/
structure Session where
  id : String
  subjectId : String
  deviceId : Option String
  tenantId : Option String
  createdAt : Int
  expiresAt : Int
  revokedAt : Option Int
  riskLevel : RiskLevel
  mfaVerified : Bool
  lastEvaluatedAt : Int
deriving DecidableEq, Repr

/-- The metadata payloads passed to audit.log by the call sites in the
session, risk and entitlement services, one constructor per call-site shape. -/
inductive AuditMeta where
  | highRisk (riskScore : Int) (signals : List RiskSignal)
  | singleSession (sessionId : String)
  | revokedCount (n : Nat)
  | subjectRef (subjectId : String)
  | entitlementReason (reason : String)
deriving DecidableEq, Repr

/-- One audit-sink record: the action name, the acting subject, an optional
target id and the call-site metadata. -/
structure AuditEntry where
  action : String
  actorId : String
  targetId : Option String := none
  meta : AuditMeta
deriving DecidableEq, Repr

/-- The shared Redis-backed state seen by the authorization core: the
session keys, the subject-to-session-ids index sets, and the audit sink.
Key TTLs are not modelled; no claim under proof involves key expiry of the
session keys. -/
structure Store where
  sessions : List (String × Session)
  subjectSessions : List (String × List String)
  auditLog : List AuditEntry
deriving DecidableEq, Repr

/-- Modelled from the spec: audit.service (the audit sink behind audit.log)
is imported by the session, risk and entitlement services but is not part of
the repository sources; the spec describes an audit sink that accepts
append-only records and never throws back into the request path, modelled
as appending one entry to the audit log list. -/
def auditLogAppend (e : AuditEntry) (st : Store) : Store :=
  { st with auditLog := st.auditLog ++ [e] }

/-- Redis SADD on a subject index set: adds the id if not already present. -/
def sadd (subjectId id : String) (idx : List (String × List String)) :
    List (String × List String) :=
  match alookup subjectId idx with
  | none => aset subjectId [id] idx
  | some ids => aset subjectId (if id ∈ ids then ids else ids ++ [id]) idx

/-- Redis SREM on a subject index set. -/
def srem (subjectId id : String) (idx : List (String × List String)) :
    List (String × List String) :=
  match alookup subjectId idx with
  | none => idx
  | some ids => aset subjectId (ids.filter (fun x => x ≠ id)) idx

/-- Redis SMEMBERS on a subject index set (empty when the key is absent). -/
def smembers (subjectId : String) (idx : List (String × List String)) : List String :=
  (alookup subjectId idx).getD []

/-- Parameter record of SessionService.create; randomUUID is modelled by the
explicit newId argument. -/
structure CreateParams where
  subjectId : String
  deviceId : Option String
  mfaVerified : Bool

/-- Parameter record of SessionService.updateRisk. -/
structure UpdateRiskParams where
  sessionId : String
  riskLevel : RiskLevel
  lastEvaluatedAt : Int

namespace SessionService

/-- SessionService.create: builds the record (no tenantId is ever written),
stores it under its id, and indexes the id under the subject.  The TTL and
index-expiry calls only set key lifetimes and are not modelled. -/
def create (newId : String) (now : Int) (params : CreateParams) (st : Store) :
    Store × Session :=
  let session : Session :=
    { id := newId
      subjectId := params.subjectId
      deviceId := params.deviceId
      tenantId := none
      createdAt := now
      expiresAt := now + 8 * 60 * 60 * 1000
      revokedAt := none
      riskLevel := .LOW
      mfaVerified := params.mfaVerified
      lastEvaluatedAt := now }
  let st := { st with sessions := aset session.id session st.sessions }
  let st := { st with subjectSessions := sadd session.subjectId session.id st.subjectSessions }
  (st, session)

/-- SessionService.get: the parsed record behind the session key, or absent. -/
def get (sessionId : String) (st : Store) : Option Session :=
  alookup sessionId st.sessions

/-- SessionService.updateRisk: read-modify-write of riskLevel and
lastEvaluatedAt; a no-op when the session key is absent.  The rewrite keys
on the parsed record's own id field, as in the source. -/
def updateRisk (params : UpdateRiskParams) (st : Store) : Store :=
  match alookup params.sessionId st.sessions with
  | none => st
  | some session =>
    let session := { session with
      riskLevel := params.riskLevel
      lastEvaluatedAt := params.lastEvaluatedAt }
    { st with sessions := aset session.id session st.sessions }

/-- SessionService.revoke: deletes the session key, removes the id from the
subject index and emits a SESSION_REVOKED audit entry; a no-op when the
session key is absent. -/
def revoke (sessionId : String) (st : Store) : Store :=
  match alookup sessionId st.sessions with
  | none => st
  | some session =>
    let st := { st with sessions := aerase sessionId st.sessions }
    let st := { st with subjectSessions := srem session.subjectId sessionId st.subjectSessions }
    auditLogAppend
      { action := "SESSION_REVOKED", actorId := session.subjectId
        meta := .singleSession sessionId } st

/-- SessionService.revokeAllForSubject: reads the index, returns early when
it is empty, otherwise deletes all listed session keys in one batched DEL,
deletes the index and emits one SESSIONS_REVOKED_SUBJECT entry carrying the
count.  The TypeScript function returns undefined on every path, modelled
as the none of the Option Nat component. -/
def revokeAllForSubject (subjectId : String) (st : Store) : Store × Option Nat :=
  let sessionIds := smembers subjectId st.subjectSessions
  if sessionIds = [] then (st, none)
  else
    let st := { st with sessions := aeraseAll sessionIds st.sessions }
    let st := { st with subjectSessions := aerase subjectId st.subjectSessions }
    let st := auditLogAppend
      { action := "SESSIONS_REVOKED_SUBJECT", actorId := subjectId
        meta := .revokedCount sessionIds.length } st
    (st, none)

end SessionService

/-! ## Session revocation wrappers (backend/authorization/sessions/session.revocation.ts) -/

/-- revokeSession of session.revocation.ts: delegates to SessionService.revoke. -/
def revokeSession (sessionId : String) (st : Store) : Store :=
  SessionService.revoke sessionId st

/-- revokeSessionsForSubject of session.revocation.ts: delegates to
SessionService.revokeAllForSubject and then emits a second
SESSIONS_REVOKED_SUBJECT audit entry carrying the subject id. -/
def revokeSessionsForSubject (subjectId : String) (st : Store) : Store :=
  let st := (SessionService.revokeAllForSubject subjectId st).1
  auditLogAppend
    { action := "SESSIONS_REVOKED_SUBJECT", actorId := subjectId
      meta := .subjectRef subjectId } st

/-! ## Risk signals (backend/authorization/risk/risk.signals.ts) -/

/-- JavaScript truthiness of a possibly-undefined string: undefined and the
empty string are falsy. -/
def jsTruthyStr : Option String → Bool
  | none => false
  | some s => s ≠ ""

/-- JavaScript string interpolation of a possibly-undefined string. -/
def jsShowStr : Option String → String
  | none => "undefined"
  | some s => s

/-- The request fields read by the authorization middlewares: the client ip
and the x-device-id and x-automation headers, each possibly absent. -/
structure Request where
  ip : Option String
  deviceIdHeader : Option String
  automationHeader : Option String

/-- collectRiskSignals of risk.signals.ts.  The ip comparison reads
session.lastIp, a property the stored session record never has, so it
compares req.ip against undefined and fires exactly when the request carries
an ip.  The device check requires the bound deviceId to be truthy and the
header to differ; the automation check requires the header to equal the
string true. -/
def collectRiskSignals (req : Request) (session : Session) : List RiskSignal :=
  let ipSignals : List RiskSignal :=
    if req.ip ≠ none then
      [{ type := .IP_ANOMALY, severity := 3
         evidence := "IP changed to " ++ jsShowStr req.ip }]
    else []
  let deviceSignals : List RiskSignal :=
    if jsTruthyStr session.deviceId ∧ req.deviceIdHeader ≠ session.deviceId then
      [{ type := .DEVICE_MISMATCH, severity := 7
         evidence := "Device header mismatch" }]
    else []
  let automationSignals : List RiskSignal :=
    if req.automationHeader = some "true" then
      [{ type := .BEHAVIOR_ANOMALY, severity := 6
         evidence := "Automation header detected" }]
    else []
  ipSignals ++ deviceSignals ++ automationSignals

/-! ## Risk service (backend/authorization/risk/risk.service.ts) -/

namespace RiskService

/-- RiskService.assessSession: evaluates the engine and, on a CRITICAL
profile, revokes the session through revokeSession and emits a
SESSION_TERMINATED_HIGH_RISK audit entry; always returns the profile. -/
def assessSession (now : Int) (params : EvaluateParams) (st : Store) :
    Store × SessionRiskProfile :=
  let profile := RiskEngine.evaluate now params
  if profile.riskLevel = .CRITICAL then
    let st := revokeSession profile.sessionId st
    let st := auditLogAppend
      { action := "SESSION_TERMINATED_HIGH_RISK", actorId := profile.subjectId
        meta := .highRisk profile.riskScore profile.signals } st
    (st, profile)
  else (st, profile)

end RiskService

/-! ## HTTP responses written by the middlewares -/

/-- A response written by one of the middlewares: the status code and the
body, a JSON object whose error and message properties are each present or
absent. -/
structure HttpResponse where
  status : Nat
  error : Option String := none
  message : Option String := none
deriving DecidableEq, Repr

/-! ## Continuous access evaluation (backend/authorization/cae/cae.middleware.ts) -/

/-- continuousAccessEvaluation of cae.middleware.ts: collects the signals,
assesses them through RiskService, persists the risk level through
SessionService.updateRisk, and on a CRITICAL profile revokes the session
(again) and short-circuits with 403 Session terminated.  The request-context
mutations (request.risk and the in-memory riskLevel) have no store effect
and are not modelled; the returned response is none when the hook falls
through to the next middleware. -/
def continuousAccessEvaluation (now : Int) (req : Request) (session : Session)
    (st : Store) : Store × Option HttpResponse :=
  let signals := collectRiskSignals req session
  let assessed := RiskService.assessSession now
    { sessionId := session.id, subjectId := session.subjectId, signals := signals } st
  let profile := assessed.2
  let st := SessionService.updateRisk
    { sessionId := session.id, riskLevel := profile.riskLevel
      lastEvaluatedAt := now } assessed.1
  if profile.riskLevel = .CRITICAL then
    let st := SessionService.revoke session.id st
    (st, some { status := 403, message := some "Session terminated" })
  else (st, none)

/-! ## Entitlements (backend/authorization/entitlement/entitlement.model.ts) -/

/-- The subject kinds that can hold entitlements. -/
inductive EntitlementSubjectType where
  | USER
  | SERVICE
  | THIRD_PARTY
deriving DecidableEq, Repr

/-- Entitlement lifecycle states. -/
inductive EntitlementStatus where
  | ACTIVE
  | REVOKED
  | EXPIRED
  | SUSPENDED
deriving DecidableEq, Repr

/-- The canonical entitlement record of entitlement.model.ts; Date fields
are epoch milliseconds. -/
structure Entitlement where
  id : String
  subjectType : EntitlementSubjectType
  subjectId : String
  resourceType : String
  resourceId : String
  scopes : List String
  status : EntitlementStatus
  validFrom : Int
  validUntil : Option Int
  grantedBy : String
  grantReason : String
  createdAt : Int
  updatedAt : Int
  revokedAt : Option Int
deriving DecidableEq, Repr

/-- isEntitlementActive of entitlement.model.ts: ACTIVE status, validFrom
not in the future, and validUntil (when present, the Date object being
always truthy) not strictly in the past. -/
def isEntitlementActive (now : Int) (entitlement : Entitlement) : Bool :=
  if entitlement.status ≠ .ACTIVE then false
  else if entitlement.validFrom > now then false
  else if (match entitlement.validUntil with
           | some vu => decide (vu < now)
           | none => false) then false
  else true

/-- The world state of the entitlement service: the Prisma entitlement
table (the Prisma client is an external collaborator, modelled as an
in-memory table keyed by the id column) together with the shared Redis
store and audit sink. -/
structure World where
  entitlements : List Entitlement
  store : Store
deriving DecidableEq, Repr

namespace EntitlementService

/-- EntitlementService.revoke of entitlement.service.ts: a Prisma update
setting status REVOKED with revokedAt and updatedAt (Prisma throws when the
id matches no row, modelled as none), then revokeSessionsForSubject on the
entitlement's subject, then an ENTITLEMENT_REVOKED audit entry; returns the
updated entitlement. -/
def revoke (entitlementId revokedBy reason : String) (now : Int) (w : World) :
    Option (World × Entitlement) :=
  match w.entitlements.find? (fun e => e.id = entitlementId) with
  | none => none
  | some e =>
    let updated := { e with
      status := .REVOKED
      revokedAt := some now
      updatedAt := now }
    let table := w.entitlements.map (fun x => if x.id = entitlementId then updated else x)
    let st := revokeSessionsForSubject updated.subjectId w.store
    let st := auditLogAppend
      { action := "ENTITLEMENT_REVOKED", actorId := revokedBy
        targetId := some entitlementId
        meta := .entitlementReason reason } st
    some ({ entitlements := table, store := st }, updated)

/-- EntitlementService.getActiveForSubject: a Prisma findMany filtered on
the subject id and status ACTIVE (the JSON round trip on the scopes column
is the identity here), then the isEntitlementActive filter at the current
time. -/
def getActiveForSubject (subjectId : String) (now : Int)
    (table : List Entitlement) : List Entitlement :=
  (table.filter (fun r => r.subjectId = subjectId ∧ r.status = .ACTIVE)).filter
    (isEntitlementActive now)

end EntitlementService

/-! ## Rate limiting (backend/authorization/throttling/rateLimit.service.ts
and riskThrottle.middleware.ts) -/

/-- One Redis counter: the current value and its expiry instant, when an
expiry has been set. -/
structure RateEntry where
  count : Nat
  expiresAt : Option Int
deriving DecidableEq, Repr

/-- The rate-counter keyspace. -/
def RateState : Type := List (String × RateEntry)

/-- Redis INCR under expiry semantics: an expired key behaves as absent, so
the counter restarts at one with no expiry; otherwise the value is
incremented in place. -/
def rateIncr (now : Int) (key : String) (rs : RateState) : Nat × RateState :=
  match alookup key rs with
  | none => (1, aset key { count := 1, expiresAt := none } rs)
  | some entry =>
    if (match entry.expiresAt with
        | some t => decide (now < t)
        | none => true) then
      (entry.count + 1, aset key { entry with count := entry.count + 1 } rs)
    else (1, aset key { count := 1, expiresAt := none } rs)

/-- Redis EXPIRE in seconds on a live counter key. -/
def rateExpire (now : Int) (seconds : Int) (key : String) (rs : RateState) : RateState :=
  match alookup key rs with
  | none => rs
  | some entry => aset key { entry with expiresAt := some (now + seconds * 1000) } rs

/-- enforceRateLimit of rateLimit.service.ts: increment the per-session
counter, set the 60-second window expiry when the counter is at one, and
throw RATE_LIMIT_EXCEEDED when the counter exceeds the limit. -/
def enforceRateLimit (now : Int) (sessionId : String) (limit : Nat)
    (rs : RateState) : RateState × Except String Unit :=
  let key := "rate:" ++ sessionId
  let incremented := rateIncr now key rs
  let count := incremented.1
  let rs := if count = 1 then rateExpire now 60 key incremented.2 else incremented.2
  if count > limit then (rs, .error "RATE_LIMIT_EXCEEDED") else (rs, .ok ())

/-- The LIMITS table of riskThrottle.middleware.ts; CRITICAL has no entry. -/
def LIMITS : RiskLevel → Option Nat
  | .LOW => some 1000
  | .MEDIUM => some 200
  | .HIGH => some 20
  | .CRITICAL => none

/-- riskThrottle of riskThrottle.middleware.ts: a CRITICAL session is
rejected outright with 403 Session terminated; otherwise the cap is the
LIMITS entry for the level, defaulting to 10 when absent, and
enforceRateLimit runs, its thrown error propagating out of the hook. -/
def riskThrottle (now : Int) (session : Session) (rs : RateState) :
    RateState × Except String (Option HttpResponse) :=
  if session.riskLevel = .CRITICAL then
    (rs, .ok (some { status := 403, message := some "Session terminated" }))
  else
    let limit := (LIMITS session.riskLevel).getD 10
    match enforceRateLimit now session.id limit rs with
    | (rs, .error e) => (rs, .error e)
    | (rs, .ok _) => (rs, .ok none)

/-! ## Device binding (backend/authentication/session/deviceBinding.middleware.ts)

The source body names its request and response objects req and res while
the declared parameters are request and reply; the body is modelled on
those parameters, the only objects the identifiers can intend. -/

/-- enforceDeviceBinding: a falsy x-device-id header (absent or empty), or
one differing from the session's bound deviceId, yields a 401 response with
a message body of Device mismatch; otherwise the hook writes nothing. -/
def enforceDeviceBinding (req : Request) (session : Session) : Option HttpResponse :=
  let deviceId := req.deviceIdHeader
  if ¬ jsTruthyStr deviceId ∨ deviceId ≠ session.deviceId then
    some { status := 401, message := some "Device mismatch" }
  else none

/-! ## Policy engine clients (opa.client.ts, opaAuthorize.ts and
backend/authorization/policy/opaWasm.runtime.ts)

The remote policy engine is an external collaborator; what the clients see
of one call is modelled as an outcome: either a response with a status code
and a parsed body, or a transport failure such as a timeout. -/

/-- The result object of the adaptive policy endpoint, the value of the
result property of the response body. -/
structure OpaDecision where
  allow : Bool
deriving DecidableEq, Repr

/-- One axios call as observed by opaClient.decide: a response carrying a
status and the optional result property of its JSON body, or a transport
failure (timeout, connection refused). -/
inductive AxiosOutcome where
  | response (status : Nat) (result : Option OpaDecision)
  | transportFailure (msg : String)

/-- opaClient.decide of opa.client.ts: axios.post resolves only for a 2xx
status and returns the body's result property; a non-2xx status or a
transport failure makes axios throw, and the client has no catch, so the
error escapes as the Except error case. -/
def opaClientDecide (outcome : AxiosOutcome) : Except String (Option OpaDecision) :=
  match outcome with
  | .transportFailure msg => .error msg
  | .response status result =>
    if 200 ≤ status ∧ status < 300 then .ok result
    else .error ("Request failed with status code " ++ toString status)

/-- opaAuthorize of opaAuthorize.ts: awaits opaClient.decide with no
try/catch, so a thrown error propagates to the pipeline; reading allow on
an undefined decision throws a TypeError; a false allow writes 403 Access
denied and a true allow falls through. -/
def opaAuthorize (outcome : AxiosOutcome) : Except String (Option HttpResponse) :=
  match opaClientDecide outcome with
  | .error e => .error e
  | .ok none => .error "TypeError: cannot read allow of undefined"
  | .ok (some decision) =>
    if ¬ decision.allow then .ok (some { status := 403, message := some "Access denied" })
    else .ok none

/-- A policy decision as returned by evaluatePolicyHttp: the allow flag and
the details value, summarized as a string. -/
structure PolicyDecision where
  allow : Bool
  details : String
deriving DecidableEq, Repr

/-- One node-fetch call as observed by evaluatePolicyHttp: a response with
a status, the optional result property of its JSON body, and its text; or a
transport failure — in particular the configured request timeout, which
rejects the fetch promise. -/
inductive FetchOutcome where
  | response (status : Nat) (result : Option Bool) (text : String)
  | timeout

/-- evaluatePolicyHttp of opaWasm.runtime.ts: deny when OPA_URL is not
configured; on a non-ok (non-2xx) response, return a deny carrying the
status and body text as details; on an ok response, allow is the truthiness
of the body's result property; a timeout rejects the fetch and there is no
catch, so it escapes as the Except error case. -/
def evaluatePolicyHttp (opaUrlConfigured : Bool) (outcome : FetchOutcome) :
    Except String PolicyDecision :=
  if ¬ opaUrlConfigured then .ok { allow := false, details := "OPA_URL not configured" }
  else
    match outcome with
    | .timeout => .error "FetchError: network timeout"
    | .response status result text =>
      if 200 ≤ status ∧ status < 300 then
        .ok { allow := (match result with | some b => b | none => false)
              details := "json:" ++ text }
      else
        .ok { allow := false, details := "status " ++ toString status ++ ":" ++ text }

/-! ## Policy input builder (backend/authorization/opa/opa.cache.ts, buildOpaInput) -/

/-- The tenant object loaded onto the request by an earlier middleware. -/
structure Tenant where
  plan : String
  isThrottled : Bool
deriving DecidableEq, Repr

/-- The tenant block of the policy input; its id is read off the session
record and can be undefined. -/
structure OpaInputTenant where
  id : Option String
  plan : String
  throttled : Bool
deriving DecidableEq, Repr

/-- The subject block of the policy input. -/
structure OpaInputSubject where
  id : String
  mfa_verified : Bool
deriving DecidableEq, Repr

/-- The policy input assembled by buildOpaInput. -/
structure OpaInput where
  tenant : OpaInputTenant
  subject : OpaInputSubject
  riskLevel : RiskLevel
  resource : Option String
  action : Option String
deriving DecidableEq, Repr

/-- buildOpaInput of opa.cache.ts: assembles the policy input from the
request's session and tenant; tenant.id is session.tenantId, which the
session-creation path never writes. -/
def buildOpaInput (session : Session) (tenant : Tenant)
    (resource action : Option String) : OpaInput :=
  { tenant := { id := session.tenantId, plan := tenant.plan, throttled := tenant.isThrottled }
    subject := { id := session.subjectId, mfa_verified := session.mfaVerified }
    riskLevel := session.riskLevel
    resource := resource
    action := action }

/-! ## Hash-chained audit log
(backend/security/data/PHASEFOUR/PARTFOUR/crypto/KeyRotationAuditService.ts)

The log is parameterized by the hash function over serialized strings; the
source instantiates it with hex-encoded SHA-256.  The serialization is the
JSON.stringify of the source's object literals: properties in insertion
order, strings escaped, properties whose value is undefined omitted. -/

/-- One hexadecimal digit as produced by the JSON \u escape. -/
def hexDigit (n : Nat) : Char :=
  if n < 10 then Char.ofNat (48 + n) else Char.ofNat (87 + n)

/-- JSON.stringify escaping of one character. -/
def jsonEscapeChar (c : Char) : String :=
  if c = '"' then "\\\""
  else if c = '\\' then "\\\\"
  else if c = '\n' then "\\n"
  else if c = '\r' then "\\r"
  else if c = '\t' then "\\t"
  else if c.toNat = 8 then "\\b"
  else if c.toNat = 12 then "\\f"
  else if c.toNat < 32 then
    "\\u00" ++ String.singleton (hexDigit (c.toNat / 16))
      ++ String.singleton (hexDigit (c.toNat % 16))
  else String.singleton c

/-- JSON.stringify escaping of a string. -/
def jsonEscape (s : String) : String :=
  String.join (s.data.map jsonEscapeChar)

/-- A JSON string literal. -/
def jsonStr (s : String) : String :=
  "\"" ++ jsonEscape s ++ "\""

/-- The eventId-less part of an AuditEvent of KeyRotationAuditService.ts,
with the property order of the append call sites. -/
structure AuditEventBody where
  timestamp : Nat
  actor : String
  action : String
  keyId : String
  keyVersion : Nat
  contextHash : String
deriving DecidableEq, Repr

/-- A chained audit event: the body plus the eventId assigned on append. -/
structure ChainedAuditEvent extends AuditEventBody where
  eventId : String
deriving DecidableEq, Repr

/-- The JSON.stringify of the object serialized inside append: the spread
event properties followed by previousHash. -/
def serializeForAppend (e : AuditEventBody) (previousHash : String) : String :=
  "\x7b\"timestamp\":" ++ toString e.timestamp
    ++ ",\"actor\":" ++ jsonStr e.actor
    ++ ",\"action\":" ++ jsonStr e.action
    ++ ",\"keyId\":" ++ jsonStr e.keyId
    ++ ",\"keyVersion\":" ++ toString e.keyVersion
    ++ ",\"contextHash\":" ++ jsonStr e.contextHash
    ++ ",\"previousHash\":" ++ jsonStr previousHash
    ++ "\x7d"

/-- The JSON.stringify of the object serialized inside verify: the spread
stored event with its eventId overwritten by undefined (and therefore
omitted from the JSON), followed by previousHash. -/
def serializeForVerify (e : ChainedAuditEvent) (previousHash : String) : String :=
  "\x7b\"timestamp\":" ++ toString e.timestamp
    ++ ",\"actor\":" ++ jsonStr e.actor
    ++ ",\"action\":" ++ jsonStr e.action
    ++ ",\"keyId\":" ++ jsonStr e.keyId
    ++ ",\"keyVersion\":" ++ toString e.keyVersion
    ++ ",\"contextHash\":" ++ jsonStr e.contextHash
    ++ ",\"previousHash\":" ++ jsonStr previousHash
    ++ "\x7d"

/-- The state of an ImmutableAuditLog instance: the appended events and the
running last hash. -/
structure ImmutableAuditLog where
  events : List ChainedAuditEvent
  lastHash : String
deriving DecidableEq, Repr

/-- A fresh ImmutableAuditLog: no events, lastHash GENESIS. -/
def ImmutableAuditLog.init : ImmutableAuditLog :=
  { events := [], lastHash := "GENESIS" }

/-- ImmutableAuditLog.append: serialize the event with the current
lastHash, hash it, store the event with the hash as its eventId, and
advance lastHash. -/
def ImmutableAuditLog.append (hash : String → String) (log : ImmutableAuditLog)
    (event : AuditEventBody) : ImmutableAuditLog × ChainedAuditEvent :=
  let h := hash (serializeForAppend event log.lastHash)
  let finalEvent : ChainedAuditEvent := { event with eventId := h }
  ({ events := log.events ++ [finalEvent], lastHash := h }, finalEvent)

/-- The loop body of ImmutableAuditLog.verify: walk the events re-deriving
each eventId from the serialized event and the previous id, GENESIS first;
false at the first mismatch. -/
def verifyFrom (hash : String → String) (prev : String) :
    List ChainedAuditEvent → Bool
  | [] => true
  | e :: rest =>
    if hash (serializeForVerify e prev) = e.eventId then
      verifyFrom hash e.eventId rest
    else false

/-- ImmutableAuditLog.verify: the walk starting from GENESIS.  The stored
lastHash is not consulted. -/
def ImmutableAuditLog.verify (hash : String → String) (log : ImmutableAuditLog) : Bool :=
  verifyFrom hash "GENESIS" log.events

/-- A log obtained by appending a sequence of events to a fresh instance. -/
def buildLog (hash : String → String) (events : List AuditEventBody) : ImmutableAuditLog :=
  events.foldl (fun log e => (log.append hash e).1) ImmutableAuditLog.init

/-- The id of the last event, or the starting previous hash for an empty
chain segment. -/
def chainEnd (p : String) (es : List ChainedAuditEvent) : String :=
  match es.getLast? with
  | some e => e.eventId
  | none => p

/-- The previous id seen by the verification walk at position i, when the
walk starts from p. -/
def chainPrevFrom (p : String) : List ChainedAuditEvent → Nat → String
  | _, 0 => p
  | [], _ + 1 => p
  | e :: rest, i + 1 => chainPrevFrom e.eventId rest i

/-- The invariant maintained by append: the events verify and lastHash is
the id of the last event (or GENESIS). -/
def logInvariant (hash : String → String) (log : ImmutableAuditLog) : Prop :=
  verifyFrom hash "GENESIS" log.events = true ∧
    log.lastHash = chainEnd "GENESIS" log.events

/-! ## Observations used by the claim statements -/

/-- Whether the audit sink holds an entry with the given action. -/
def auditHasAction (a : String) (st : Store) : Bool :=
  st.auditLog.any (fun e => e.action = a)

/-- Whether every stored session is listed in its subject's index set (the
session-index integrity invariant of the store). -/
def indexComplete (st : Store) : Bool :=
  st.sessions.all (fun kv => kv.1 ∈ smembers kv.2.subjectId st.subjectSessions)

/-- Whether no stored session belongs to the given subject. -/
def noSessionsForSubject (subjectId : String) (st : Store) : Bool :=
  st.sessions.all (fun kv => kv.2.subjectId ≠ subjectId)

/-- Run riskThrottle once per request time, threading the counter state;
the trace pairs each request time with its outcome. -/
def throttleTrace (session : Session) : List Int → RateState →
    List (Int × Except String (Option HttpResponse))
  | [], _ => []
  | t :: ts, rs =>
    let step := riskThrottle t session rs
    (t, step.2) :: throttleTrace session ts step.1

/-- A request is admitted when the throttle hook falls through without a
response and without throwing. -/
def isAdmitted : Except String (Option HttpResponse) → Bool
  | .ok none => true
  | _ => false

/-- The number of admitted requests in a trace. -/
def admittedCount (tr : List (Int × Except String (Option HttpResponse))) : Nat :=
  (tr.filter (fun p => isAdmitted p.2)).length

/-- The number of admitted requests whose time falls in the half-open
interval from lo to hi. -/
def admittedCountIn (lo hi : Int) (tr : List (Int × Except String (Option HttpResponse))) : Nat :=
  (tr.filter (fun p => isAdmitted p.2 && decide (lo ≤ p.1) && decide (p.1 < hi))).length

/-! ## Classifier characterization -/

/-! ## Concrete inputs used by witnesses and counterexamples -/

/-- An entitlement whose validUntil sits exactly at the probe instant. -/
def entBoundary : Entitlement :=
  { id := "e9", subjectType := .USER, subjectId := "u9"
    resourceType := "doc", resourceId := "d1", scopes := ["read"]
    status := .ACTIVE, validFrom := 0, validUntil := some 100
    grantedBy := "admin", grantReason := "probe", createdAt := 0
    updatedAt := 0, revokedAt := none }

/-- A session bound to device d1. -/
def sessD1 : Session :=
  { id := "s1", subjectId := "u1", deviceId := some "d1", tenantId := none
    createdAt := 0, expiresAt := 1000, revokedAt := none
    riskLevel := .LOW, mfaVerified := true, lastEvaluatedAt := 0 }

/-- A request carrying no x-device-id header. -/
def reqNoHeader : Request :=
  { ip := some "1.1.1.1", deviceIdHeader := none, automationHeader := none }

/-- A request whose x-device-id header is the empty string. -/
def reqEmptyHeader : Request :=
  { ip := none, deviceIdHeader := some "", automationHeader := none }

/-- A session whose bound device id is the empty string. -/
def sessEmptyDev : Session :=
  { sessD1 with id := "s2", deviceId := some "" }

/-- A request matching the bound device d1. -/
def reqD1 : Request :=
  { ip := none, deviceIdHeader := some "d1", automationHeader := none }

/-! ## Session-store lemmas -/

/-- A request whose signals against sessD1 sum to severity 16, scoring 80
and classifying CRITICAL. -/
def reqCritical : Request :=
  { ip := some "9.9.9.9", deviceIdHeader := some "d2", automationHeader := some "true" }

/-- A store holding the single session s1 of subject u1, correctly indexed. -/
def wStore : Store :=
  { sessions := [("s1", sessD1)]
    subjectSessions := [("u1", ["s1"])]
    auditLog := [] }

/-! ## Revoke-all lemmas -/

/-- A session of subject u2. -/
def sessS2 : Session :=
  { id := "s2", subjectId := "u2", deviceId := none, tenantId := none
    createdAt := 0, expiresAt := 1000, revokedAt := none
    riskLevel := .LOW, mfaVerified := true, lastEvaluatedAt := 0 }

/-- A second session of subject u2. -/
def sessS3 : Session :=
  { sessS2 with id := "s3" }

/-- A store holding the two indexed sessions of subject u2. -/
def cstU2 : Store :=
  { sessions := [("s2", sessS2), ("s3", sessS3)]
    subjectSessions := [("u2", ["s2", "s3"])]
    auditLog := [] }

/-! ## Entitlement revocation lemmas -/

/-- The entitlement e1 of subject u2, active and unbounded. -/
def entA : Entitlement :=
  { id := "e1", subjectType := .USER, subjectId := "u2"
    resourceType := "doc", resourceId := "d9", scopes := ["read"]
    status := .ACTIVE, validFrom := 0, validUntil := none
    grantedBy := "root", grantReason := "grant", createdAt := 0
    updatedAt := 0, revokedAt := none }

/-- A world holding entitlement e1 over the two-session store of u2. -/
def cw : World :=
  { entitlements := [entA], store := cstU2 }

/-- A fallback pair, never reached, for extracting the revoke result. -/
def c4fallback : World × Entitlement :=
  ({ entitlements := [], store := { sessions := [], subjectSessions := [], auditLog := [] } },
   entA)

/-- The concrete result of revoking entitlement e1 in the world cw. -/
def c4pair : World × Entitlement :=
  (EntitlementService.revoke "e1" "admin" "offboarding" 500 cw).getD c4fallback

/-! ## Rate-limiter lemmas -/

/-- A HIGH-risk session used by the throttling scenarios. -/
def sessHigh : Session :=
  { sessS2 with id := "sh", subjectId := "uh", riskLevel := .HIGH }

/-- A CRITICAL-risk session used by the throttling scenarios. -/
def sessCrit : Session :=
  { sessS2 with id := "sc", subjectId := "uc", riskLevel := .CRITICAL }

/-- A counter state in which session sh has already spent its HIGH cap in
the live window. -/
def rs20 : RateState :=
  [("rate:sh", { count := 20, expiresAt := some 100 })]

/-- The request times of the sliding-window scenario: one request at 0,
nineteen at 59000, twenty at 61000 (the counter window opened at 0 expires
at 60000). -/
def ctTimes : List Int :=
  0 :: (List.replicate 19 59000 ++ List.replicate 20 61000)

/-! ## Audit-chain scenario inputs -/

/-- A concrete injective stand-in for the hex-encoded SHA-256 of the
source, adequate for evaluating the chain on concrete inputs. -/
def hashW : String → String := fun s => "H" ++ s

/-- A first audit event body. -/
def bodyA : AuditEventBody :=
  { timestamp := 1, actor := "alice", action := "KEY_CREATED"
    keyId := "k1", keyVersion := 1, contextHash := "c1" }

/-- A second audit event body. -/
def bodyB : AuditEventBody :=
  { timestamp := 2, actor := "alice", action := "KEY_ROTATED"
    keyId := "k1", keyVersion := 2, contextHash := "c2" }

/-- The first appended record with its content mutated but its stored
eventId left unchanged. -/
def tamperedA : ChainedAuditEvent :=
  { toAuditEventBody := { bodyA with actor := "mallory" }
    eventId := hashW (serializeForAppend bodyA "GENESIS") }

/-- The body of a forged replacement record. -/
def bodyM : AuditEventBody :=
  { bodyA with actor := "mallory" }

/-- A forged record whose eventId is consistently recomputed from its own
mutated content and the previous id. -/
def forged : ChainedAuditEvent :=
  { toAuditEventBody := bodyM
    eventId := hashW (serializeForAppend bodyM "GENESIS") }

/-! ## Theorems -/

theorem alookup_aerase {α : Type} (k k' : String) (l : List (String × α)) :
    alookup k (aerase k' l) = if k = k' then none else alookup k l := by
  induction l with
  | nil => simp [alookup, aerase]
  | cons kv rest ih =>
    obtain ⟨k₀, v₀⟩ := kv
    by_cases h₁ : k₀ = k'
    · subst h₁
      by_cases h₂ : k = k₀ <;> simp [aerase, alookup, h₂] at ih ⊢ <;> simpa [aerase, h₂] using ih
    · by_cases h₂ : k = k₀
      · subst h₂
        simp [aerase, alookup, h₁]
      · simp [aerase, alookup, h₁, h₂] at ih ⊢
        simpa [aerase] using ih

theorem alookup_aset_self {α : Type} (k : String) (v : α) (l : List (String × α)) :
    alookup k (aset k v l) = some v := by
  simp [aset, alookup]

theorem alookup_aset {α : Type} (k k' : String) (v : α) (l : List (String × α)) :
    alookup k (aset k' v l) = if k = k' then some v else alookup k l := by
  by_cases h : k = k'
  · subst h; simp [aset, alookup]
  · simp [aset, alookup, h, alookup_aerase]

theorem alookup_aeraseAll {α : Type} (k : String) (ks : List String) (l : List (String × α)) :
    alookup k (aeraseAll ks l) = if k ∈ ks then none else alookup k l := by
  induction l with
  | nil => simp [alookup, aeraseAll]
  | cons kv rest ih =>
    obtain ⟨k₀, v₀⟩ := kv
    by_cases hmem : k₀ ∈ ks
    · by_cases h₂ : k = k₀
      · subst h₂
        simp [aeraseAll, alookup, hmem] at ih ⊢
        simpa [aeraseAll] using ih
      · simp [aeraseAll, alookup, hmem, h₂] at ih ⊢
        simpa [aeraseAll] using ih
    · by_cases h₂ : k = k₀
      · subst h₂
        simp [aeraseAll, alookup, hmem]
      · simp [aeraseAll, alookup, hmem, h₂] at ih ⊢
        simpa [aeraseAll] using ih

theorem foldl_severity_eq (signals : List RiskSignal) (a : Int) :
    signals.foldl (fun sum s => sum + s.severity * 5) a
      = a + 5 * (signals.map (fun s => s.severity)).sum := by
  induction signals generalizing a with
  | nil => simp
  | cons s rest ih => simp [List.foldl_cons, ih]; ring

theorem serializeForVerify_eq (e : ChainedAuditEvent) (previousHash : String) :
    serializeForVerify e previousHash = serializeForAppend e.toAuditEventBody previousHash := rfl

theorem chainEnd_append (p : String) (xs : List ChainedAuditEvent) (e : ChainedAuditEvent) :
    chainEnd p (xs ++ [e]) = e.eventId := by
  simp [chainEnd]

theorem verifyFrom_append (hash : String → String) (p : String)
    (xs : List ChainedAuditEvent) (e : ChainedAuditEvent) :
    verifyFrom hash p (xs ++ [e]) = true ↔
      (verifyFrom hash p xs = true ∧
        hash (serializeForVerify e (chainEnd p xs)) = e.eventId) := by
  induction xs generalizing p with
  | nil =>
    simp only [List.nil_append, verifyFrom, chainEnd, List.getLast?_nil]
    by_cases h : hash (serializeForVerify e p) = e.eventId <;> simp [h, verifyFrom]
  | cons x rest ih =>
    simp only [List.cons_append, verifyFrom]
    by_cases h : hash (serializeForVerify x p) = x.eventId
    · have hend : chainEnd p (x :: rest) = chainEnd x.eventId rest := by
        cases rest with
        | nil => simp [chainEnd]
        | cons y ys =>
          cases hlast : (y :: ys).getLast? with
          | none => simp at hlast
          | some z => simp [chainEnd, hlast]
      simp [h, hend, ih]
    · simp [h]

theorem logInvariant_init (hash : String → String) :
    logInvariant hash ImmutableAuditLog.init := by
  constructor <;> rfl

theorem logInvariant_append (hash : String → String) (log : ImmutableAuditLog)
    (e : AuditEventBody) (h : logInvariant hash log) :
    logInvariant hash (log.append hash e).1 := by
  obtain ⟨hver, hlast⟩ := h
  constructor
  · rw [ImmutableAuditLog.append]
    refine (verifyFrom_append hash "GENESIS" log.events _).2 ⟨hver, ?_⟩
    rw [serializeForVerify_eq, ← hlast]
  · rw [ImmutableAuditLog.append]
    simp [chainEnd_append]

theorem logInvariant_buildLog (hash : String → String) (events : List AuditEventBody) :
    logInvariant hash (buildLog hash events) := by
  have main : ∀ (es : List AuditEventBody) (log : ImmutableAuditLog),
      logInvariant hash log →
      logInvariant hash (es.foldl (fun l e => (l.append hash e).1) log) := by
    intro es
    induction es with
    | nil => intro log h; exact h
    | cons e rest ih =>
      intro log h
      exact ih _ (logInvariant_append hash log e h)
  exact main events ImmutableAuditLog.init (logInvariant_init hash)

theorem verifyFrom_set_bad (hash : String → String) (p : String)
    (es : List ChainedAuditEvent) (i : Nat) (e' : ChainedAuditEvent)
    (hok : verifyFrom hash p es = true) (hi : i < es.length)
    (hbad : hash (serializeForVerify e' (chainPrevFrom p es i)) ≠ e'.eventId) :
    verifyFrom hash p (es.set i e') = false := by
  induction es generalizing p i with
  | nil => simp at hi
  | cons e rest ih =>
    cases i with
    | zero =>
      simp only [chainPrevFrom] at hbad
      simp [List.set, verifyFrom, hbad]
    | succ j =>
      simp only [verifyFrom] at hok
      by_cases hhead : hash (serializeForVerify e p) = e.eventId
      · rw [if_pos hhead] at hok
        simp only [List.set, verifyFrom, if_pos hhead]
        exact ih e.eventId j hok (by simpa using hi) hbad
      · rw [if_neg hhead] at hok
        exact absurd hok (by simp)

theorem classify_eq_LOW (s : Int) : classify s = .LOW ↔ s < 30 := by
  unfold classify
  split_ifs <;> simp_all <;> omega

theorem classify_eq_MEDIUM (s : Int) : classify s = .MEDIUM ↔ 30 ≤ s ∧ s < 60 := by
  unfold classify
  split_ifs <;> simp_all <;> omega

theorem classify_eq_HIGH (s : Int) : classify s = .HIGH ↔ 60 ≤ s ∧ s < 80 := by
  unfold classify
  split_ifs <;> simp_all <;> omega

theorem classify_eq_CRITICAL (s : Int) : classify s = .CRITICAL ↔ 80 ≤ s := by
  unfold classify
  split_ifs <;> simp_all <;> omega

/-- Claim C3: for every list of signals, RiskEngine.evaluate
deterministically returns riskScore equal to the minimum of 100 and the sum
of the severities times 5, and a riskLevel classified by the thresholds
LOW below 30, MEDIUM in the interval from 30 to 60, HIGH from 60 to 80 and
CRITICAL from 80 upward, inclusive at each lower bound; severities 3 and 7
give score 50 and level MEDIUM, and the empty signal list gives score 0 and
level LOW. -/
theorem claim_C3 (now : Int) (params : EvaluateParams) :
    (RiskEngine.evaluate now params).riskScore
        = min 100 (5 * (params.signals.map (fun s => s.severity)).sum) ∧
    ((RiskEngine.evaluate now params).riskLevel = .LOW
        ↔ (RiskEngine.evaluate now params).riskScore < 30) ∧
    ((RiskEngine.evaluate now params).riskLevel = .MEDIUM
        ↔ 30 ≤ (RiskEngine.evaluate now params).riskScore
          ∧ (RiskEngine.evaluate now params).riskScore < 60) ∧
    ((RiskEngine.evaluate now params).riskLevel = .HIGH
        ↔ 60 ≤ (RiskEngine.evaluate now params).riskScore
          ∧ (RiskEngine.evaluate now params).riskScore < 80) ∧
    ((RiskEngine.evaluate now params).riskLevel = .CRITICAL
        ↔ 80 ≤ (RiskEngine.evaluate now params).riskScore) ∧
    (RiskEngine.evaluate 0
        { sessionId := "s1", subjectId := "u1"
          signals := [{ type := .IP_ANOMALY, severity := 3, evidence := "ip" },
                      { type := .DEVICE_MISMATCH, severity := 7, evidence := "dev" }] }).riskScore
        = 50 ∧
    (RiskEngine.evaluate 0
        { sessionId := "s1", subjectId := "u1"
          signals := [{ type := .IP_ANOMALY, severity := 3, evidence := "ip" },
                      { type := .DEVICE_MISMATCH, severity := 7, evidence := "dev" }] }).riskLevel
        = .MEDIUM ∧
    (RiskEngine.evaluate 0
        { sessionId := "s1", subjectId := "u1", signals := [] }).riskScore = 0 ∧
    (RiskEngine.evaluate 0
        { sessionId := "s1", subjectId := "u1", signals := [] }).riskLevel = .LOW := by
  have hscore : (RiskEngine.evaluate now params).riskScore
      = min 100 (5 * (params.signals.map (fun s => s.severity)).sum) := by
    show min (params.signals.foldl (fun sum s => sum + s.severity * 5) 0) 100
      = min 100 (5 * (params.signals.map (fun s => s.severity)).sum)
    rw [foldl_severity_eq, min_comm]
    norm_num
  have hlevel : (RiskEngine.evaluate now params).riskLevel
      = classify (RiskEngine.evaluate now params).riskScore := rfl
  refine ⟨hscore, ?_, ?_, ?_, ?_, by decide, by decide, by decide, by decide⟩
  · rw [hlevel]; exact classify_eq_LOW _
  · rw [hlevel]; exact classify_eq_MEDIUM _
  · rw [hlevel]; exact classify_eq_HIGH _
  · rw [hlevel]; exact classify_eq_CRITICAL _

/-- Claim C10: every session record produced by SessionService.create
carries no tenantId (create accepts none and writes none, although the
Session interface declares the field required), the record is stored as
such, and buildOpaInput consequently carries an undefined tenant id in the
policy input. -/
theorem claim_C10 (newId : String) (now : Int) (params : CreateParams) (st : Store)
    (tenant : Tenant) (resource action : Option String) :
    ((SessionService.create newId now params st).2).tenantId = none ∧
    alookup newId ((SessionService.create newId now params st).1).sessions
      = some (SessionService.create newId now params st).2 ∧
    (buildOpaInput (SessionService.create newId now params st).2 tenant
      resource action).tenant.id = none := by
  refine ⟨rfl, ?_, rfl⟩
  show alookup newId (aset newId _ st.sessions) = _
  exact alookup_aset_self newId _ st.sessions

theorem isEntitlementActive_iff (now : Int) (e : Entitlement) :
    isEntitlementActive now e = true ↔
      e.status = .ACTIVE ∧ e.validFrom ≤ now ∧
        (match e.validUntil with
         | none => True
         | some vu => now ≤ vu) := by
  unfold isEntitlementActive
  cases hvu : e.validUntil with
  | none => split_ifs <;> simp_all <;> omega
  | some vu => split_ifs <;> simp_all <;> omega

/-- Claim C8 (amended): GetActiveForSubject returns exactly the subject's
entitlements whose status is ACTIVE and whose validity window contains the
current time as the closed interval from validFrom to validUntil (infinite
when validUntil is absent): an entitlement whose validUntil equals the
current instant IS returned, as is one whose validFrom equals it. -/
theorem claim_C8 (subjectId : String) (now : Int) (table : List Entitlement)
    (e : Entitlement) :
    e ∈ EntitlementService.getActiveForSubject subjectId now table ↔
      e ∈ table ∧ e.subjectId = subjectId ∧ e.status = .ACTIVE ∧
        e.validFrom ≤ now ∧
        (match e.validUntil with
         | none => True
         | some vu => now ≤ vu) := by
  unfold EntitlementService.getActiveForSubject
  simp only [List.mem_filter, decide_eq_true_eq, isEntitlementActive_iff]
  tauto

/-- Claim C8 counterexample: an entitlement whose validUntil equals the
current instant is returned by getActiveForSubject, contradicting the
half-open window of the claim. -/
theorem claim_C8_counterexample :
    entBoundary.validUntil = some 100 ∧
    entBoundary ∈ EntitlementService.getActiveForSubject "u9" 100 [entBoundary] := by
  constructor
  · rfl
  · decide

/-- Claim C9 (amended): enforceDeviceBinding responds 401 with the body
carrying message Device mismatch (not error) when the x-device-id header is
absent, empty, or differs from the session's bound deviceId; when the
header is truthy and equal to the bound id it passes the request through
without writing a response. -/
theorem claim_C9 (req : Request) (session : Session) :
    ((jsTruthyStr req.deviceIdHeader = false ∨ req.deviceIdHeader ≠ session.deviceId) →
      enforceDeviceBinding req session
        = some { status := 401, message := some "Device mismatch" }) ∧
    ((jsTruthyStr req.deviceIdHeader = true ∧ req.deviceIdHeader = session.deviceId) →
      enforceDeviceBinding req session = none) := by
  unfold enforceDeviceBinding
  constructor
  · intro h
    have : ¬ jsTruthyStr req.deviceIdHeader = true ∨ req.deviceIdHeader ≠ session.deviceId := by
      rcases h with h | h
      · exact Or.inl (by simp [h])
      · exact Or.inr h
    rw [if_pos this]
  · rintro ⟨h₁, h₂⟩
    rw [if_neg]
    push_neg
    exact ⟨by simp [h₁], h₂⟩

/-- Claim C9 witness: concrete applications of the amended theorem — a
missing header yields the 401 mismatch response, and a matching truthy
header passes through. -/
theorem claim_C9_witness :
    enforceDeviceBinding reqNoHeader sessD1
      = some { status := 401, message := some "Device mismatch" } ∧
    enforceDeviceBinding reqD1 sessD1 = none := by
  constructor
  · exact (claim_C9 reqNoHeader sessD1).1 (Or.inl (by decide))
  · exact (claim_C9 reqD1 sessD1).2 ⟨by decide, by decide⟩

/-- Claim C9 counterexample: the 401 body carries the message property, not
the error property the claim states; and a header equal to the bound device
id is still rejected when both are the empty string, because the source
tests the header for JavaScript truthiness first. -/
theorem claim_C9_counterexample :
    enforceDeviceBinding reqNoHeader sessD1
      = some { status := 401, error := none, message := some "Device mismatch" } ∧
    reqEmptyHeader.deviceIdHeader = sessEmptyDev.deviceId ∧
    enforceDeviceBinding reqEmptyHeader sessEmptyDev ≠ none := by
  refine ⟨by decide, by decide, by decide⟩

/-- Claim C7 (amended): evaluatePolicyHttp maps a non-2xx response to an
allow of false with a details explanation, but a remote timeout rejects the
fetch and escapes the function as a thrown error; opaClient.decide throws
on both a non-2xx status and a transport failure, and opaAuthorize has no
catch, so the error propagates into the pipeline instead of a 403 deny. -/
theorem claim_C7 :
    (∀ (status : Nat) (result : Option Bool) (text : String),
      ¬ (200 ≤ status ∧ status < 300) →
      evaluatePolicyHttp true (.response status result text)
        = .ok { allow := false, details := "status " ++ toString status ++ ":" ++ text }) ∧
    evaluatePolicyHttp true .timeout = .error "FetchError: network timeout" ∧
    (∀ (status : Nat) (result : Option OpaDecision),
      ¬ (200 ≤ status ∧ status < 300) →
      opaClientDecide (.response status result)
        = .error ("Request failed with status code " ++ toString status)) ∧
    (∀ msg, opaClientDecide (.transportFailure msg) = .error msg) ∧
    (∀ (outcome : AxiosOutcome) (e : String),
      opaClientDecide outcome = .error e → opaAuthorize outcome = .error e) := by
  refine ⟨?_, rfl, ?_, fun msg => rfl, ?_⟩
  · intro status result text h
    unfold evaluatePolicyHttp
    simp [h]
  · intro status result h
    unfold opaClientDecide
    simp [h]
  · intro outcome e h
    unfold opaAuthorize
    rw [h]

/-- Claim C7 witness: concrete applications of the amended theorem at a 503
response and a timeout. -/
theorem claim_C7_witness :
    evaluatePolicyHttp true (.response 503 none "unavailable")
      = .ok { allow := false, details := "status 503:unavailable" } ∧
    opaClientDecide (.response 503 none) = .error "Request failed with status code 503" ∧
    opaAuthorize (.transportFailure "timeout of 5000ms exceeded")
      = .error "timeout of 5000ms exceeded" := by
  refine ⟨?_, ?_, ?_⟩
  · exact claim_C7.1 503 none "unavailable" (by decide)
  · exact claim_C7.2.2.1 503 none (by decide)
  · exact claim_C7.2.2.2.2 (.transportFailure "timeout of 5000ms exceeded") _
      (claim_C7.2.2.2.1 "timeout of 5000ms exceeded")

/-- Claim C7 counterexample: a non-2xx policy-engine response makes
opaClient.decide throw, and opaAuthorize propagates the exception into the
pipeline instead of denying with 403; a timeout likewise escapes
evaluatePolicyHttp as an error rather than an allow-false decision. -/
theorem claim_C7_counterexample :
    opaAuthorize (.response 503 none) = .error "Request failed with status code 503" ∧
    evaluatePolicyHttp true .timeout = .error "FetchError: network timeout" := by
  exact ⟨rfl, rfl⟩

theorem alookup_mem {α : Type} (k : String) (v : α) (l : List (String × α))
    (h : alookup k l = some v) : (k, v) ∈ l := by
  induction l with
  | nil => simp [alookup] at h
  | cons kv rest ih =>
    obtain ⟨k₀, v₀⟩ := kv
    by_cases hk : k = k₀
    · subst hk
      simp [alookup] at h
      simp [h]
    · simp [alookup, hk] at h
      exact List.mem_cons_of_mem _ (ih h)

theorem updateRisk_of_absent (p : UpdateRiskParams) (st : Store)
    (h : alookup p.sessionId st.sessions = none) :
    SessionService.updateRisk p st = st := by
  unfold SessionService.updateRisk
  rw [h]

theorem revoke_of_absent (sessionId : String) (st : Store)
    (h : alookup sessionId st.sessions = none) :
    SessionService.revoke sessionId st = st := by
  unfold SessionService.revoke
  rw [h]

theorem revoke_sessions_self (sessionId : String) (st : Store) :
    alookup sessionId (SessionService.revoke sessionId st).sessions = none := by
  unfold SessionService.revoke
  cases h : alookup sessionId st.sessions with
  | none => simp [h]
  | some s => simp [h, auditLogAppend, alookup_aerase]

theorem assessSession_snd (now : Int) (params : EvaluateParams) (st : Store) :
    (RiskService.assessSession now params st).2 = RiskEngine.evaluate now params := by
  simp only [RiskService.assessSession]
  split <;> rfl

theorem assessSession_critical (now : Int) (params : EvaluateParams) (st : Store)
    (h : (RiskEngine.evaluate now params).riskLevel = .CRITICAL) :
    RiskService.assessSession now params st =
      (auditLogAppend
        { action := "SESSION_TERMINATED_HIGH_RISK"
          actorId := params.subjectId
          meta := .highRisk (RiskEngine.evaluate now params).riskScore params.signals }
        (revokeSession params.sessionId st),
       RiskEngine.evaluate now params) := by
  simp only [RiskService.assessSession]
  rw [if_pos h]
  rfl

theorem cae_critical (now : Int) (req : Request) (session : Session) (st : Store)
    (h : (RiskEngine.evaluate now
      { sessionId := session.id, subjectId := session.subjectId
        signals := collectRiskSignals req session }).riskLevel = .CRITICAL) :
    continuousAccessEvaluation now req session st =
      ((RiskService.assessSession now
          { sessionId := session.id, subjectId := session.subjectId
            signals := collectRiskSignals req session } st).1,
       some { status := 403, message := some "Session terminated" }) := by
  have habs : alookup session.id
      (RiskService.assessSession now
        { sessionId := session.id, subjectId := session.subjectId
          signals := collectRiskSignals req session } st).1.sessions = none := by
    rw [assessSession_critical now _ st h]
    exact revoke_sessions_self session.id st
  unfold continuousAccessEvaluation
  simp only [assessSession_snd, h, if_pos]
  rw [updateRisk_of_absent _ _ habs, revoke_of_absent _ _ habs]

/-- Claim C1: when the risk evaluation of a request yields CRITICAL, the
continuous-access-evaluation hook leaves a state in which the session was
revoked through SessionStore.Revoke, a SESSION_TERMINATED_HIGH_RISK audit
event was emitted, the request is short-circuited with 403, and every
subsequent Get of the session id is absent — in particular the updateRisk
call the hook performs after assessment does not recreate the revoked
record, and neither does any later updateRisk. -/
theorem claim_C1 (now : Int) (req : Request) (session : Session) (st : Store)
    (hcrit : (RiskEngine.evaluate now
      { sessionId := session.id, subjectId := session.subjectId
        signals := collectRiskSignals req session }).riskLevel = .CRITICAL) :
    (continuousAccessEvaluation now req session st).2
        = some { status := 403, message := some "Session terminated" } ∧
    auditHasAction "SESSION_TERMINATED_HIGH_RISK"
        (continuousAccessEvaluation now req session st).1 = true ∧
    SessionService.get session.id (continuousAccessEvaluation now req session st).1 = none ∧
    ∀ p : UpdateRiskParams, p.sessionId = session.id →
      SessionService.get session.id
        (SessionService.updateRisk p (continuousAccessEvaluation now req session st).1) = none := by
  have hc := cae_critical now req session st hcrit
  have habs : SessionService.get session.id
      (continuousAccessEvaluation now req session st).1 = none := by
    rw [hc, assessSession_critical now _ st hcrit]
    exact revoke_sessions_self session.id st
  refine ⟨by rw [hc], ?_, habs, ?_⟩
  · rw [hc, assessSession_critical now _ st hcrit]
    simp [auditHasAction, auditLogAppend]
  · intro p hp
    have : alookup p.sessionId
        (continuousAccessEvaluation now req session st).1.sessions = none := by
      rw [hp]; exact habs
    rw [updateRisk_of_absent p _ this]
    exact habs

/-- Claim C1 witness: the theorem applied to session s1 under a request
whose signals score 80 (CRITICAL). -/
theorem claim_C1_witness :
    (continuousAccessEvaluation 1000 reqCritical sessD1 wStore).2
        = some { status := 403, message := some "Session terminated" } ∧
    auditHasAction "SESSION_TERMINATED_HIGH_RISK"
        (continuousAccessEvaluation 1000 reqCritical sessD1 wStore).1 = true ∧
    SessionService.get "s1" (continuousAccessEvaluation 1000 reqCritical sessD1 wStore).1 = none ∧
    SessionService.get "s1"
        (SessionService.updateRisk
          { sessionId := "s1", riskLevel := .LOW, lastEvaluatedAt := 2000 }
          (continuousAccessEvaluation 1000 reqCritical sessD1 wStore).1) = none := by
  have h := claim_C1 1000 reqCritical sessD1 wStore (by decide)
  exact ⟨h.1, h.2.1, h.2.2.1, h.2.2.2 _ rfl⟩

theorem revokeAll_snd (subjectId : String) (st : Store) :
    (SessionService.revokeAllForSubject subjectId st).2 = none := by
  simp only [SessionService.revokeAllForSubject]
  split <;> rfl

theorem revokeAll_empty (subjectId : String) (st : Store)
    (h : smembers subjectId st.subjectSessions = []) :
    SessionService.revokeAllForSubject subjectId st = (st, none) := by
  simp only [SessionService.revokeAllForSubject]
  rw [if_pos h]

theorem revokeAll_get_listed (subjectId : String) (st : Store) (id : String)
    (h : id ∈ smembers subjectId st.subjectSessions) :
    SessionService.get id (SessionService.revokeAllForSubject subjectId st).1 = none := by
  have hne : smembers subjectId st.subjectSessions ≠ [] := by
    intro he; rw [he] at h; cases h
  simp only [SessionService.revokeAllForSubject]
  rw [if_neg hne]
  simp [SessionService.get, auditLogAppend, alookup_aeraseAll, h]

theorem revokeAll_index_empty (subjectId : String) (st : Store) :
    smembers subjectId
      (SessionService.revokeAllForSubject subjectId st).1.subjectSessions = [] := by
  by_cases h : smembers subjectId st.subjectSessions = []
  · rw [revokeAll_empty subjectId st h]; exact h
  · simp only [SessionService.revokeAllForSubject]
    rw [if_neg h]
    simp [auditLogAppend, smembers, alookup_aerase]

theorem revokeAll_nonempty_audit (subjectId : String) (st : Store)
    (h : smembers subjectId st.subjectSessions ≠ []) :
    (SessionService.revokeAllForSubject subjectId st).1.auditLog
      = st.auditLog ++
        [{ action := "SESSIONS_REVOKED_SUBJECT", actorId := subjectId
           meta := .revokedCount (smembers subjectId st.subjectSessions).length }] := by
  simp only [SessionService.revokeAllForSubject]
  rw [if_neg h]
  rfl

theorem indexComplete_spec (st : Store) (h : indexComplete st = true)
    (id : String) (s : Session) (hmem : (id, s) ∈ st.sessions) :
    id ∈ smembers s.subjectId st.subjectSessions := by
  have := List.all_eq_true.mp h _ hmem
  simpa using this

theorem revokeAll_subject_gone (subjectId : String) (st : Store)
    (hc : indexComplete st = true) :
    noSessionsForSubject subjectId
      (SessionService.revokeAllForSubject subjectId st).1 = true := by
  by_cases hemp : smembers subjectId st.subjectSessions = []
  · rw [revokeAll_empty subjectId st hemp]
    refine List.all_eq_true.mpr ?_
    rintro ⟨id, s⟩ hmem
    have hidx := indexComplete_spec st hc id s hmem
    simp only [decide_eq_true_eq]
    intro hsub
    rw [hsub, hemp] at hidx
    cases hidx
  · simp only [SessionService.revokeAllForSubject]
    rw [if_neg hemp]
    refine List.all_eq_true.mpr ?_
    rintro ⟨id, s⟩ hmem
    simp only [auditLogAppend, aeraseAll, List.mem_filter] at hmem
    obtain ⟨hmem, hnotin⟩ := hmem
    have hidx := indexComplete_spec st hc id s hmem
    simp only [decide_eq_true_eq]
    intro hsub
    rw [hsub] at hidx
    simp [hidx] at hnotin

/-- Claim C5 (amended): RevokeAllForSubject reads the index set; when it is
non-empty it deletes all listed session keys in one batched operation,
deletes the index, and emits exactly one SESSIONS_REVOKED_SUBJECT audit
event carrying the count of revoked sessions, while an empty index returns
early with no deletion and no audit event; the TypeScript function returns
undefined on every path rather than the count; the operation is idempotent,
and after it returns, Get on every listed session id is absent. -/
theorem claim_C5 (subjectId : String) (st : Store) :
    (SessionService.revokeAllForSubject subjectId st).2 = none ∧
    (smembers subjectId st.subjectSessions).all
      (fun id => (SessionService.get id
        (SessionService.revokeAllForSubject subjectId st).1).isNone) = true ∧
    smembers subjectId
      (SessionService.revokeAllForSubject subjectId st).1.subjectSessions = [] ∧
    SessionService.revokeAllForSubject subjectId
        (SessionService.revokeAllForSubject subjectId st).1
      = ((SessionService.revokeAllForSubject subjectId st).1, none) ∧
    (if smembers subjectId st.subjectSessions = [] then
      (SessionService.revokeAllForSubject subjectId st).1 = st
    else
      (SessionService.revokeAllForSubject subjectId st).1.auditLog
        = st.auditLog ++
          [{ action := "SESSIONS_REVOKED_SUBJECT", actorId := subjectId
             meta := .revokedCount (smembers subjectId st.subjectSessions).length }]) := by
  refine ⟨revokeAll_snd subjectId st, ?_, revokeAll_index_empty subjectId st, ?_, ?_⟩
  · refine List.all_eq_true.mpr ?_
    intro id hid
    have := revokeAll_get_listed subjectId st id hid
    simp [this]
  · have := revokeAll_empty subjectId (SessionService.revokeAllForSubject subjectId st).1
      (revokeAll_index_empty subjectId st)
    exact this
  · by_cases hemp : smembers subjectId st.subjectSessions = []
    · rw [if_pos hemp, revokeAll_empty subjectId st hemp]
    · rw [if_neg hemp]
      exact revokeAll_nonempty_audit subjectId st hemp

/-- Claim C5 counterexample: revoking the two sessions of subject u2
returns undefined, not the count 2 the claim states; and the idempotent
second call emits no audit event at all. -/
theorem claim_C5_counterexample :
    (smembers "u2" cstU2.subjectSessions).length = 2 ∧
    (SessionService.revokeAllForSubject "u2" cstU2).2 = none ∧
    (SessionService.revokeAllForSubject "u2" cstU2).2 ≠ some 2 ∧
    (SessionService.revokeAllForSubject "u2"
        (SessionService.revokeAllForSubject "u2" cstU2).1).1.auditLog
      = (SessionService.revokeAllForSubject "u2" cstU2).1.auditLog := by
  refine ⟨by decide, by decide, by decide, by decide⟩

theorem find?_map_replace (l : List Entitlement) (eid : String) (e updated : Entitlement)
    (hfind : l.find? (fun x => x.id = eid) = some e) (hid : updated.id = eid) :
    (l.map (fun x => if x.id = eid then updated else x)).find? (fun x => x.id = eid)
      = some updated := by
  induction l with
  | nil => simp at hfind
  | cons x rest ih =>
    by_cases hx : x.id = eid
    · simp only [List.map_cons, if_pos hx]
      rw [List.find?_cons_of_pos _ (by simp [hid])]
    · simp only [List.map_cons, if_neg hx]
      rw [List.find?_cons_of_neg _ (by simp [hx])] at hfind
      rw [List.find?_cons_of_neg _ (by simp [hx])]
      exact ih hfind

/-- Claim C4: EntitlementService.revoke sets the entitlement's status to
REVOKED with revokedAt and updatedAt, forces re-authorization through
SessionStore.RevokeAllForSubject for the entitlement's subject, and writes
an ENTITLEMENT_REVOKED audit record; afterwards, under the session-index
integrity invariant, no session of that subject remains in the store. -/
theorem claim_C4 (entitlementId revokedBy reason : String) (now : Int)
    (w : World) (w' : World) (e' : Entitlement)
    (hidx : indexComplete w.store = true)
    (hrev : EntitlementService.revoke entitlementId revokedBy reason now w = some (w', e')) :
    e'.status = .REVOKED ∧ e'.revokedAt = some now ∧ e'.updatedAt = now ∧
    w'.entitlements.find? (fun x => x.id = entitlementId) = some e' ∧
    auditHasAction "ENTITLEMENT_REVOKED" w'.store = true ∧
    noSessionsForSubject e'.subjectId w'.store = true := by
  simp only [EntitlementService.revoke] at hrev
  cases hfind : w.entitlements.find? (fun e => e.id = entitlementId) with
  | none => rw [hfind] at hrev; cases hrev
  | some e =>
    rw [hfind] at hrev
    simp only [Option.some.injEq, Prod.mk.injEq] at hrev
    obtain ⟨hw', he'⟩ := hrev
    have hide : e.id = entitlementId := by
      have := List.find?_some hfind
      simpa using this
    subst hw'
    subst he'
    refine ⟨rfl, rfl, rfl, ?_, ?_, ?_⟩
    · exact find?_map_replace w.entitlements entitlementId e _ hfind hide
    · simp [auditHasAction, auditLogAppend]
    · have hsess :
          (auditLogAppend
            { action := "ENTITLEMENT_REVOKED", actorId := revokedBy
              targetId := some entitlementId
              meta := .entitlementReason reason }
            (revokeSessionsForSubject e.subjectId w.store)).sessions
          = (SessionService.revokeAllForSubject e.subjectId w.store).1.sessions := rfl
      have hgone := revokeAll_subject_gone e.subjectId w.store hidx
      unfold noSessionsForSubject at hgone ⊢
      rw [hsess]
      exact hgone

/-- Claim C4 witness: the theorem applied to the concrete revocation of
entitlement e1, whose subject u2 had two live sessions. -/
theorem claim_C4_witness :
    c4pair.2.status = .REVOKED ∧ c4pair.2.revokedAt = some 500 ∧
    c4pair.2.updatedAt = 500 ∧
    auditHasAction "ENTITLEMENT_REVOKED" c4pair.1.store = true ∧
    noSessionsForSubject c4pair.2.subjectId c4pair.1.store = true := by
  have h := claim_C4 "e1" "admin" "offboarding" 500 cw c4pair.1 c4pair.2
    (by decide) (by decide)
  exact ⟨h.1, h.2.1, h.2.2.1, h.2.2.2.2.1, h.2.2.2.2.2⟩

theorem riskThrottle_critical (now : Int) (session : Session) (rs : RateState)
    (h : session.riskLevel = .CRITICAL) :
    riskThrottle now session rs
      = (rs, .ok (some { status := 403, message := some "Session terminated" })) := by
  unfold riskThrottle
  rw [if_pos h]

theorem riskThrottle_fresh_step (t : Int) (session : Session) (rs : RateState)
    (hl : session.riskLevel ≠ .CRITICAL)
    (hk : alookup ("rate:" ++ session.id) rs = none) :
    riskThrottle t session rs
      = (aset ("rate:" ++ session.id) { count := 1, expiresAt := some (t + 60 * 1000) }
          (aset ("rate:" ++ session.id) { count := 1, expiresAt := none } rs),
         if 1 > (LIMITS session.riskLevel).getD 10 then .error "RATE_LIMIT_EXCEEDED"
         else .ok none) := by
  unfold riskThrottle
  rw [if_neg hl]
  simp only [enforceRateLimit, rateIncr, hk, rateExpire, alookup_aset_self]
  by_cases hover : 1 > (LIMITS session.riskLevel).getD 10
  · simp [hover]
  · simp [hover]

theorem riskThrottle_live_step (t : Int) (session : Session) (rs : RateState)
    (c : Nat) (exp : Int)
    (hl : session.riskLevel ≠ .CRITICAL)
    (hk : alookup ("rate:" ++ session.id) rs
      = some { count := c, expiresAt := some exp })
    (hc : 1 ≤ c) (ht : t < exp) :
    riskThrottle t session rs
      = (aset ("rate:" ++ session.id) { count := c + 1, expiresAt := some exp } rs,
         if c + 1 > (LIMITS session.riskLevel).getD 10 then .error "RATE_LIMIT_EXCEEDED"
         else .ok none) := by
  unfold riskThrottle
  rw [if_neg hl]
  simp only [enforceRateLimit, rateIncr, hk, decide_eq_true_eq, if_pos ht,
    if_neg (by omega : ¬ c + 1 = 1)]
  by_cases hover : c + 1 > (LIMITS session.riskLevel).getD 10
  · simp [hover]
  · simp [hover]

theorem admittedCount_cons (p : Int × Except String (Option HttpResponse))
    (tr : List (Int × Except String (Option HttpResponse))) :
    admittedCount (p :: tr) = (if isAdmitted p.2 then 1 else 0) + admittedCount tr := by
  unfold admittedCount
  rw [List.filter_cons]
  split <;> simp <;> omega

theorem throttle_window_invariant (session : Session)
    (hl : session.riskLevel ≠ .CRITICAL) :
    ∀ (ts : List Int) (rs : RateState) (c : Nat) (exp : Int),
      alookup ("rate:" ++ session.id) rs = some { count := c, expiresAt := some exp } →
      1 ≤ c →
      (∀ t ∈ ts, t < exp) →
      admittedCount (throttleTrace session ts rs)
        ≤ (LIMITS session.riskLevel).getD 10 - c := by
  intro ts
  induction ts with
  | nil =>
    intro rs c exp _ _ _
    simp [throttleTrace, admittedCount]
  | cons t ts ih =>
    intro rs c exp hk hc hts
    have ht : t < exp := hts t (List.mem_cons_self t ts)
    have hstep := riskThrottle_live_step t session rs c exp hl hk hc ht
    have hts' : ∀ t' ∈ ts, t' < exp := fun t' ht' => hts t' (List.mem_cons_of_mem _ ht')
    have hk' : alookup ("rate:" ++ session.id)
        (aset ("rate:" ++ session.id) { count := c + 1, expiresAt := some exp } rs)
        = some { count := c + 1, expiresAt := some exp } := alookup_aset_self _ _ _
    have hrec := ih _ (c + 1) exp hk' (by omega) hts'
    simp only [throttleTrace, hstep, admittedCount_cons]
    by_cases hover : c + 1 > (LIMITS session.riskLevel).getD 10
    · simp only [if_pos hover]
      simp [isAdmitted]
      omega
    · simp only [if_neg hover]
      simp [isAdmitted]
      omega

theorem riskThrottle_error_iff (now : Int) (session : Session) (rs : RateState)
    (h : session.riskLevel ≠ .CRITICAL) :
    ((riskThrottle now session rs).2 = .error "RATE_LIMIT_EXCEEDED"
      ↔ (rateIncr now ("rate:" ++ session.id) rs).1 > (LIMITS session.riskLevel).getD 10) := by
  unfold riskThrottle
  rw [if_neg h]
  simp only [enforceRateLimit]
  by_cases hover : (rateIncr now ("rate:" ++ session.id) rs).1 > (LIMITS session.riskLevel).getD 10
  · simp [hover]
  · simp [hover]

/-- Claim C6 (amended): riskThrottle responds 403 Session terminated on a
CRITICAL session; otherwise it increments the per-session counter and
raises RATE_LIMIT_EXCEEDED exactly when the counter exceeds the cap
LOW 1000, MEDIUM 200, HIGH 20, default 10; within one fixed 60-second
counter window at most the cap is admitted — but a 60-second interval
straddling two counter windows can admit up to twice the cap. -/
theorem claim_C6 :
    (∀ (now : Int) (session : Session) (rs : RateState),
      session.riskLevel = .CRITICAL →
      riskThrottle now session rs
        = (rs, .ok (some { status := 403, message := some "Session terminated" }))) ∧
    (∀ (now : Int) (session : Session) (rs : RateState),
      session.riskLevel ≠ .CRITICAL →
      ((riskThrottle now session rs).2 = .error "RATE_LIMIT_EXCEEDED"
        ↔ (rateIncr now ("rate:" ++ session.id) rs).1
            > (LIMITS session.riskLevel).getD 10)) ∧
    (LIMITS .LOW).getD 10 = 1000 ∧ (LIMITS .MEDIUM).getD 10 = 200 ∧
    (LIMITS .HIGH).getD 10 = 20 ∧ (LIMITS .CRITICAL).getD 10 = 10 ∧
    (∀ (session : Session) (t₀ : Int) (ts : List Int) (rs : RateState),
      session.riskLevel ≠ .CRITICAL →
      alookup ("rate:" ++ session.id) rs = none →
      (∀ t ∈ ts, t < t₀ + 60 * 1000) →
      admittedCount (throttleTrace session (t₀ :: ts) rs)
        ≤ (LIMITS session.riskLevel).getD 10) := by
  refine ⟨riskThrottle_critical, riskThrottle_error_iff, rfl, rfl, rfl, rfl, ?_⟩
  intro session t₀ ts rs hl hk hts
  have hstep := riskThrottle_fresh_step t₀ session rs hl hk
  have hk' : alookup ("rate:" ++ session.id)
      (aset ("rate:" ++ session.id) { count := 1, expiresAt := some (t₀ + 60 * 1000) }
        (aset ("rate:" ++ session.id) { count := 1, expiresAt := none } rs))
      = some { count := 1, expiresAt := some (t₀ + 60 * 1000) } := alookup_aset_self _ _ _
  have hrec := throttle_window_invariant session hl ts _ 1 (t₀ + 60 * 1000) hk'
    (le_refl 1) hts
  simp only [throttleTrace, hstep, admittedCount_cons]
  norm_num at hrec ⊢
  by_cases hzero : (LIMITS session.riskLevel).getD 10 = 0
  · simp [if_pos hzero, isAdmitted]
    omega
  · simp [if_neg hzero, isAdmitted]
    omega

/-- Claim C6 witness: concrete applications of the amended theorem — a
CRITICAL session is rejected with 403, the twenty-first request of a HIGH
session in one window raises RATE_LIMIT_EXCEEDED, and a fully in-window
burst of twenty requests of a HIGH session is admitted within the cap. -/
theorem claim_C6_witness :
    riskThrottle 0 sessCrit []
      = ([], .ok (some { status := 403, message := some "Session terminated" })) ∧
    (riskThrottle 50 sessHigh rs20).2 = .error "RATE_LIMIT_EXCEEDED" ∧
    admittedCount (throttleTrace sessHigh (0 :: List.replicate 30 59000) []) ≤ 20 := by
  refine ⟨?_, ?_, ?_⟩
  · exact claim_C6.1 0 sessCrit [] (by decide)
  · exact (claim_C6.2.1 50 sessHigh rs20 (by decide)).mpr (by decide)
  · exact claim_C6.2.2.2.2.2.2 sessHigh 0 (List.replicate 30 59000) [] (by decide)
      (by decide) (by decide)

/-- Claim C6 counterexample: with the HIGH cap of 20, a trace admitting
nineteen requests at 59000 in the counter window opened at 0 and twenty
more at 61000 in the next counter window places 39 admitted requests
inside the single 60-second interval from 30000 to 90000, so the claim
that any 60-second window admits at most the cap is false. -/
theorem claim_C6_counterexample :
    sessHigh.riskLevel = .HIGH ∧
    (LIMITS .HIGH).getD 10 = 20 ∧
    admittedCountIn 30000 90000 (throttleTrace sessHigh ctTimes []) = 39 := by
  refine ⟨rfl, rfl, by decide⟩

/-- Claim C2 (amended): for every sequence of appended audit events,
recomputing each record's hash from the canonical serialization of the
record without its id, combined with the previous record's id (GENESIS for
the first), reproduces the stored id, so verification of an untampered log
succeeds; and a single-record mutation breaks verification at that record
whenever the mutated record's stored id is not the recomputed chained hash
of its mutated content — a mutation that consistently recomputes the final
record's id escapes detection, because verify never compares the walk
against the stored lastHash. -/
theorem claim_C2 :
    (∀ (hash : String → String) (events : List AuditEventBody),
      (buildLog hash events).verify hash = true) ∧
    (∀ (hash : String → String) (events : List AuditEventBody) (i : Nat)
        (e' : ChainedAuditEvent),
      i < (buildLog hash events).events.length →
      hash (serializeForVerify e'
        (chainPrevFrom "GENESIS" (buildLog hash events).events i)) ≠ e'.eventId →
      verifyFrom hash "GENESIS" ((buildLog hash events).events.set i e') = false) := by
  constructor
  · intro hash events
    exact (logInvariant_buildLog hash events).1
  · intro hash events i e' hi hbad
    exact verifyFrom_set_bad hash "GENESIS" (buildLog hash events).events i e'
      (logInvariant_buildLog hash events).1 hi hbad

/-- Claim C2 witness: the theorem applied to a concrete two-event log and a
mutation of its first record that keeps the stored id. -/
theorem claim_C2_witness :
    (buildLog hashW [bodyA, bodyB]).verify hashW = true ∧
    verifyFrom hashW "GENESIS"
      ((buildLog hashW [bodyA, bodyB]).events.set 0 tamperedA) = false := by
  exact ⟨claim_C2.1 hashW [bodyA, bodyB],
    claim_C2.2 hashW [bodyA, bodyB] 0 tamperedA (by decide) (by decide)⟩

/-- Claim C2 counterexample: mutating the single record of a log while
recomputing its id consistently yields a different log that still passes
verification, so a single-record mutation does not always break
verification at that record or a successor. -/
theorem claim_C2_counterexample :
    (buildLog hashW [bodyA]).events.set 0 forged ≠ (buildLog hashW [bodyA]).events ∧
    ((buildLog hashW [bodyA]).events.set 0 forged).length
      = (buildLog hashW [bodyA]).events.length ∧
    verifyFrom hashW "GENESIS" ((buildLog hashW [bodyA]).events.set 0 forged) = true := by
  refine ⟨by decide, by decide, by decide⟩

end RiverZTA

